import Mathlib

/-!
Verification of the python-spree REST client (src/spree/spree.py) against its
natural-language specification.

The file is a shallow embedding of the client's core: the generic
`Resource` CRUD/find operations, the `Pagination` wrapper with its iteration
protocol, and the per-resource path and payload-shaping rules (Product,
Order, StockLocation, StockItem, Variant, Shipment).  Python dictionaries
are modelled as ordered association lists with Python's lookup, assignment,
pop and update semantics; Python exceptions are modelled with `Except` and
explicit error constructors; the single HTTP request an operation issues is
reified as a `Request` record (method, url, query parameters, form body),
and response handling is a function from an `HttpResponse` (status plus
decoded JSON body) to a result.
-/

set_option linter.unusedVariables false

/-- Values stored in a Python dictionary used as query parameters or form
payload: the client only ever stores strings and integers there. -/
inductive PVal where
  | s (v : String)
  | i (n : Int)
deriving DecidableEq, Repr

/-- Decoded JSON values, as returned by `response.json()`. -/
inductive Json where
  | str (s : String)
  | int (n : Int)
  | null
  | arr (xs : List Json)
  | obj (fields : List (String × Json))

/-- Python `d[k]` / `d.get(k)` / `k in d` over an ordered association list:
`none` when the key is absent. -/
def dictGet {α : Type} : List (String × α) → String → Option α
  | [], _ => none
  | (k', v) :: rest, k => if k' = k then some v else dictGet rest k

/-- Python `d[k] = v`: replaces the value of an existing key in place,
otherwise appends the new pair at the end. -/
def dictSet {α : Type} : List (String × α) → String → α → List (String × α)
  | [], k, v => [(k, v)]
  | (k', v') :: rest, k, v =>
    if k' = k then (k', v) :: rest else (k', v') :: dictSet rest k v

/-- The removal part of Python `d.pop(k)`: drops the pair with key `k`. -/
def dictRemove {α : Type} : List (String × α) → String → List (String × α)
  | [], _ => []
  | (k', v) :: rest, k =>
    if k' = k then dictRemove rest k else (k', v) :: dictRemove rest k

/-- Python `d.update(e)`: assigns every pair of `e` into `d` in order. -/
def dictUpdate {α : Type} (d e : List (String × α)) : List (String × α) :=
  e.foldl (fun acc kv => dictSet acc kv.1 kv.2) d

/-- Python truthiness of a dictionary value (`if data.get('path'):`). -/
def pvTruthy : PVal → Bool
  | PVal.s v => !v.isEmpty
  | PVal.i n => n != 0

/-- The string a `PVal` contributes when used as a URL. -/
def pvStr : PVal → String
  | PVal.s v => v
  | PVal.i n => toString n

/-- Python `'%s' % x` for an optional integer: `None` prints as "None". -/
def pyStrOpt : Option Int → String
  | none => "None"
  | some n => toString n

/-- Python truthiness of an optional integer (`if not self.product_id:`):
`None` and `0` are falsy. -/
def pyTruthyOpt : Option Int → Bool
  | none => false
  | some n => n != 0

/-- Python list indexing `xs[i]`: negative indices count from the end,
`none` models an `IndexError`. -/
def pyIndex (xs : List Json) (i : Int) : Option Json :=
  if 0 ≤ i then xs.get? i.toNat
  else if 0 ≤ (xs.length : Int) + i then xs.get? ((xs.length : Int) + i).toNat
  else none

/-- The one HTTP request an operation issues: `params` are the query
parameters, `body` the form-encoded request body (empty list = empty body). -/
structure Request where
  method : String
  url : String
  params : List (String × PVal)
  body : List (String × PVal)
deriving DecidableEq, Repr

/-- An HTTP response: status code and decoded JSON body. -/
structure HttpResponse where
  status : Nat
  body : Json

/-- The exceptions the client can raise while handling a call:
`resourceNotFound` is the library's own exception for a 404;
`httpError status` is the generic error `response.raise_for_status()` raises;
`keyError`, `valueError` and `typeError` model the corresponding Python
exceptions (missing dictionary key, failed single-element unpacking, and a
value of the wrong shape). -/
inductive SpreeError where
  | resourceNotFound
  | httpError (status : Nat)
  | keyError
  | valueError
  | typeError
deriving DecidableEq, Repr

/-- `requests.Response.raise_for_status`: raises the generic HTTP error
exactly for status codes in 400..599, and returns for every other status
(1xx, 2xx and 3xx included). -/
def raise_for_status (status : Nat) : Except SpreeError Unit :=
  if 400 ≤ status ∧ status < 600 then Except.error (SpreeError.httpError status)
  else Except.ok ()

/-- `Resource.validate_response`: a 404 raises `ResourceNotFound`, any other
status is passed to `raise_for_status`. -/
def validate_response (status : Nat) : Except SpreeError Unit :=
  if status = 404 then Except.error SpreeError.resourceNotFound
  else raise_for_status status

/-- The uniform response handling every CRUD operation of `Resource`
(find, get, create, update, delete) performs: `validate_response` on the
status, then `response.json()` (here: the already decoded body). -/
def Resource.handle (r : HttpResponse) : Except SpreeError Json :=
  match validate_response r.status with
  | Except.error e => Except.error e
  | Except.ok _ => Except.ok r.body

/-- The `per_page` default of `Resource.__init__`. -/
def Resource.default_per_page : Int := 25

/-- What a call to `Resource.find(page, filters)` produces on the caller's
side, with the request reified: `request` is the GET it issues;
`callerFilters` is the value of the caller-supplied `filters` dictionary
after the call (in Python, `params = filters or {}` aliases a non-empty
`filters`, so `params.update(...)` mutates the caller's dictionary);
`pagFilters` is the `filters` reference the returned `Pagination` stores
(the very same, possibly mutated, dictionary). -/
structure FindResult where
  request : Request
  callerFilters : Option (List (String × PVal))
  pagFilters : Option (List (String × PVal))
deriving DecidableEq, Repr

/-- `Resource.find`, request-building side: `params = filters or {}` (a
fresh dictionary when `filters` is `None` or empty, the caller's own
dictionary otherwise), then `params.update({'page': page, 'per_page':
self.per_page})`, then a GET with `params` as query parameters; the
`Pagination` is constructed with `filters=filters` (not `params`). -/
def Resource.find_effect (url : String) (per_page page : Int)
    (filters : Option (List (String × PVal))) : FindResult :=
  match filters with
  | none =>
    let params := dictUpdate [] [("page", PVal.i page), ("per_page", PVal.i per_page)]
    { request := { method := "GET", url := url, params := params, body := [] },
      callerFilters := none, pagFilters := none }
  | some f =>
    if f.isEmpty then
      let params := dictUpdate [] [("page", PVal.i page), ("per_page", PVal.i per_page)]
      { request := { method := "GET", url := url, params := params, body := [] },
        callerFilters := some f, pagFilters := some f }
    else
      let params := dictUpdate f [("page", PVal.i page), ("per_page", PVal.i per_page)]
      { request := { method := "GET", url := url, params := params, body := [] },
        callerFilters := some params, pagFilters := some params }

/-- The arguments `Pagination.next_page` passes to `self.resource.find`:
the requested page number and the filters dictionary it forwards. -/
structure FindCall where
  page : Int
  filters : Option (List (String × PVal))
deriving DecidableEq, Repr

/-- The state of a `Pagination`: the raw decoded page (`data`), the item
list extracted from it under the resource's `item_attribute`, the iteration
cursor `current_index` (initialised to `-1`), and the stored `filters`. -/
structure Pagination where
  data : List (String × Json)
  items : List Json
  current_index : Int
  filters : Option (List (String × PVal))

/-- Python `int(...)` applied to a decoded JSON field, restricted to the
values that actually occur: an integer stays itself, anything else is not
an integer field (`none`). -/
def Json.asInt : Json → Option Int
  | Json.int n => some n
  | _ => none

/-- `Pagination.count`: `int(self.data['count'])`; `none` models the
exception raised when the field is missing or not an integer. -/
def Pagination.count (p : Pagination) : Option Int :=
  (dictGet p.data "count").bind Json.asInt

/-- `Pagination.page`: `int(self.data['current_page'])`. -/
def Pagination.page (p : Pagination) : Option Int :=
  (dictGet p.data "current_page").bind Json.asInt

/-- `Pagination.pages`: `int(self.data['pages'])`. -/
def Pagination.pages (p : Pagination) : Option Int :=
  (dictGet p.data "pages").bind Json.asInt

/-- `Pagination.has_next`: `self.pages > self.page`. -/
def Pagination.has_next (p : Pagination) : Option Bool := do
  let pgs ← p.pages
  let pg ← p.page
  pure (decide (pgs > pg))

/-- `Pagination.next_page`: when `has_next`, delegates to
`self.resource.find(page=self.page + 1, filters=self.filters)` — reified as
the `FindCall` it makes; otherwise the method falls through and returns
`None` (`some none`).  The outer `Option` models the exception raised when
the page fields are unreadable. -/
def Pagination.next_page (p : Pagination) : Option (Option FindCall) := do
  let hn ← p.has_next
  if hn then
    let pg ← p.page
    pure (some { page := pg + 1, filters := p.filters })
  else
    pure none

/-- What one pull (`Pagination.next`) can produce: an item, the
`StopIteration` that ends Python iteration, an `IndexError` from indexing
past `self.items`, or the exception from an unreadable `count` field. -/
inductive PullResult where
  | item (j : Json)
  | stopIteration
  | indexError
  | keyError

/-- `Pagination.next`: while `self.current_index < self.count - 1`,
increment the cursor and return `self.items[self.current_index]`; otherwise
raise `StopIteration`.  The cursor increment happens before the indexing,
so an out-of-range pull still advances the cursor. -/
def Pagination.next (p : Pagination) : Pagination × PullResult :=
  match p.count with
  | none => (p, PullResult.keyError)
  | some c =>
    if p.current_index < c - 1 then
      let i := p.current_index + 1
      let p' := { p with current_index := i }
      match pyIndex p.items i with
      | some j => (p', PullResult.item j)
      | none => (p', PullResult.indexError)
    else
      (p, PullResult.stopIteration)

/-- Pull from a `Pagination` up to `fuel` times, as a `for` loop over the
iterator would (`__iter__` returns `self`, so the cursor state persists):
returns the items yielded in order, the final state, and the event that
ended the loop (`none` when the fuel ran out with the loop still yielding;
`Pagination.next` issues no HTTP request, so no `Request` can appear). -/
def Pagination.runAux : Pagination → Nat → List Json × Pagination × Option PullResult
  | p, 0 => ([], p, none)
  | p, n + 1 =>
    match p.next with
    | (p', PullResult.item j) =>
      let r := p'.runAux n
      (j :: r.1, r.2.1, r.2.2)
    | (p', e) => ([], p', some e)

/-- `Product.path`. -/
def Product.path : String := "/products"

/-- `Order.path`. -/
def Order.path : String := "/orders"

/-- `StockLocation.path`. -/
def StockLocation.path : String := "/stock_locations"

/-- `StockItem.path`: `'/stock_locations/%d/stock_items' % self.location_id`. -/
def StockItem.path (location_id : Int) : String :=
  "/stock_locations/" ++ toString location_id ++ "/stock_items"

/-- `Variant.path`: `'/products/%s/variants' % self.product_id`.  Note that
the constructor parameter is substituted unconditionally: a handle built
with `product_id=None` gets the literal path `/products/None/variants`. -/
def Variant.path (product_id : Option Int) : String :=
  "/products/" ++ pyStrOpt product_id ++ "/variants"

/-- `Shipment.path` (the property override): `'/orders/%s/shipments'`. -/
def Shipment.path (order_number : String) : String :=
  "/orders/" ++ order_number ++ "/shipments"

/-- `Resource.url` for a Shipment handle: `connection.url + path`. -/
def Shipment.url (conn_url order_number : String) : String :=
  conn_url ++ Shipment.path order_number

/-- The renaming table of `Product.load_payload`, in source order: each
`(field, 'product[field]')` pair is applied by an `if field in data:` guard. -/
def productFieldMap : List (String × String) :=
  [("price", "product[price]"),
   ("shipping_category_id", "product[shipping_category_id]"),
   ("sku", "product[sku]"),
   ("description", "product[description]"),
   ("display_price", "product[display_price]"),
   ("available_on", "product[available_on]"),
   ("meta_description", "product[meta_description]"),
   ("meta_keywords", "product[meta_keywords]"),
   ("weight", "product[weight]"),
   ("height", "product[height]"),
   ("width", "product[width]"),
   ("depth", "product[depth]"),
   ("cost_price", "product[cost_price]")]

/-- One guarded renaming step of `Product.load_payload`:
`if src in data: payload[dst] = data[src]`. -/
def addIf (data payload : List (String × PVal)) (src dst : String) :
    List (String × PVal) :=
  match dictGet data src with
  | some v => dictSet payload dst v
  | none => payload

/-- `Product.load_payload`: starts from `{'product[name]': data['name']}` —
an unconditional read that raises `KeyError` when `name` is absent — then
applies the guarded renamings of `productFieldMap` in order; the
superclass `load_payload` is the identity. -/
def Product.load_payload (data : List (String × PVal)) :
    Except SpreeError (List (String × PVal)) :=
  match dictGet data "name" with
  | none => Except.error SpreeError.keyError
  | some v =>
    Except.ok (productFieldMap.foldl
      (fun pl sd => addIf data pl sd.1 sd.2) [("product[name]", v)])

/-- Written from the spec's words, for comparison with
`Product.load_payload`: the payload of `Product.create` is the
whitelist-and-rename of the input — key `product[name]` carries the input's
`name`, key `product[field]` carries the input's `field` for each
whitelisted field, and no other key is present.  This function gives, for
each payload key, the value the spec says it must hold (`none` = absent). -/
def productPayloadSpec (data : List (String × PVal)) (k : String) : Option PVal :=
  if k = "product[name]" then dictGet data "name"
  else
    match productFieldMap.find? (fun sd => sd.2 == k) with
    | some sd => dictGet data sd.1
    | none => none

/-- `StockItem.load_payload`: guarded renamings of `count_on_hand` and
`force` into `stock_item[...]` keys, starting from an empty payload. -/
def StockItem.load_payload (data : List (String × PVal)) : List (String × PVal) :=
  addIf data (addIf data [] "count_on_hand" "stock_item[count_on_hand]")
    "force" "stock_item[force]"

/-- The GET that `Variant.get(id)` issues: with a falsy `product_id` it
targets `connection.url + '/variants'` with query parameter `q[id_eq]=id`;
otherwise it follows the generic `Resource.get` and targets
`connection.url + path + '/' + str(id)` with no parameters. -/
def Variant.get_request (conn_url : String) (product_id : Option Int) (id : Int) :
    Request :=
  if pyTruthyOpt product_id then
    { method := "GET", url := conn_url ++ Variant.path product_id ++ "/" ++ toString id,
      params := [], body := [] }
  else
    { method := "GET", url := conn_url ++ "/variants",
      params := [("q[id_eq]", PVal.i id)], body := [] }

/-- How `Variant.get(id)` handles the response: after `validate_response`,
with a falsy `product_id` it evaluates `response, = response.json()['variants']`
— single-element unpacking that raises `ValueError` unless the `variants`
array holds exactly one element (`KeyError` if the key is missing,
`TypeError` if the value is not an array) — and returns that element;
otherwise (generic `Resource.get`) it returns the decoded body. -/
def Variant.get_response (product_id : Option Int) (r : HttpResponse) :
    Except SpreeError Json :=
  if pyTruthyOpt product_id then
    Resource.handle r
  else
    match validate_response r.status with
    | Except.error e => Except.error e
    | Except.ok _ =>
      match r.body with
      | Json.obj fields =>
        match dictGet fields "variants" with
        | some (Json.arr [x]) => Except.ok x
        | some (Json.arr _) => Except.error SpreeError.valueError
        | some _ => Except.error SpreeError.typeError
        | none => Except.error SpreeError.keyError
      | _ => Except.error SpreeError.typeError

/-- `Shipment.load_payload`: renames `tracking` to `shipment[tracking]` and
`number` to `shipment[number]` by popping the old key and assigning the new
one (the source mutates the caller's dictionary; here the resulting value
is returned). -/
def Shipment.load_payload (data : List (String × PVal)) : List (String × PVal) :=
  let d1 :=
    match dictGet data "tracking" with
    | some v => dictSet (dictRemove data "tracking") "shipment[tracking]" v
    | none => data
  match dictGet d1 "number" with
  | some v => dictSet (dictRemove d1 "number") "shipment[number]" v
  | none => d1

/-- `Shipment.update`: the target defaults to `url + '/' + shipment_number`;
`if data.get('path'):` a truthy `path` entry is popped and used as the URL
instead.  The shaped payload is passed as `params=` of the PUT — query
parameters — and the request body stays empty. -/
def Shipment.update (conn_url order_number shipment_number : String)
    (data : List (String × PVal)) : Request :=
  let path0 := Shipment.url conn_url order_number ++ "/" ++ shipment_number
  match dictGet data "path" with
  | some v =>
    if pvTruthy v then
      { method := "PUT", url := pvStr v,
        params := Shipment.load_payload (dictRemove data "path"), body := [] }
    else
      { method := "PUT", url := path0,
        params := Shipment.load_payload data, body := [] }
  | none =>
    { method := "PUT", url := path0,
      params := Shipment.load_payload data, body := [] }

/-- `Shipment.ready`: sets `data['path']` to the `/ready` sub-action URL and
funnels through `Shipment.update`.  (`data` defaults to an empty dict.) -/
def Shipment.ready (conn_url order_number shipment_number : String)
    (data : List (String × PVal)) : Request :=
  Shipment.update conn_url order_number shipment_number
    (dictSet data "path"
      (PVal.s (Shipment.url conn_url order_number ++ "/" ++ shipment_number ++ "/ready")))

/-- `Shipment.ship`: sets `data['path']` to the `/ship` sub-action URL and
funnels through `Shipment.update`.  (`data` defaults to an empty dict.) -/
def Shipment.ship (conn_url order_number shipment_number : String)
    (data : List (String × PVal)) : Request :=
  Shipment.update conn_url order_number shipment_number
    (dictSet data "path"
      (PVal.s (Shipment.url conn_url order_number ++ "/" ++ shipment_number ++ "/ship")))

/-- `Shipment.add`: sets `data['path']` to the `/add` sub-action URL and
funnels through `Shipment.update`. -/
def Shipment.add (conn_url order_number shipment_number : String)
    (data : List (String × PVal)) : Request :=
  Shipment.update conn_url order_number shipment_number
    (dictSet data "path"
      (PVal.s (Shipment.url conn_url order_number ++ "/" ++ shipment_number ++ "/add")))

/-- `Shipment.remove`: sets `data['path']` to the `/remove` sub-action URL
and funnels through `Shipment.update`. -/
def Shipment.remove (conn_url order_number shipment_number : String)
    (data : List (String × PVal)) : Request :=
  Shipment.update conn_url order_number shipment_number
    (dictSet data "path"
      (PVal.s (Shipment.url conn_url order_number ++ "/" ++ shipment_number ++ "/remove")))

/-! ## Helper lemmas about the dictionary model -/

theorem dictGet_dictSet_self {α : Type} (d : List (String × α)) (k : String) (v : α) :
    dictGet (dictSet d k v) k = some v := by
  induction d with
  | nil => simp [dictGet, dictSet]
  | cons kv rest ih =>
    by_cases h : kv.1 = k
    · simp [dictSet, dictGet, h]
    · simp only [dictSet, dictGet, h, if_false]
      simpa [dictGet, h] using ih

theorem dictGet_dictSet_ne {α : Type} (d : List (String × α)) (k k' : String) (v : α)
    (h : k' ≠ k) : dictGet (dictSet d k v) k' = dictGet d k' := by
  have hkk : ¬ k = k' := fun e => h e.symm
  induction d with
  | nil => simp only [dictSet, dictGet, if_neg hkk]
  | cons kv rest ih =>
    by_cases hk : kv.1 = k
    · simp only [dictSet, if_pos hk, dictGet]
      rw [if_neg (by rw [hk]; exact hkk), if_neg (by rw [hk]; exact hkk)]
    · simp only [dictSet, if_neg hk, dictGet]
      by_cases hk' : kv.1 = k'
      · rw [if_pos hk', if_pos hk']
      · rw [if_neg hk', if_neg hk', ih]

theorem dictSet_of_get_none {α : Type} (d : List (String × α)) (k : String) (v : α)
    (h : dictGet d k = none) : dictSet d k v = d ++ [(k, v)] := by
  induction d with
  | nil => simp [dictSet]
  | cons kv rest ih =>
    simp only [dictGet] at h
    by_cases hk : kv.1 = k
    · simp [hk] at h
    · simp only [dictSet, hk, if_false, List.cons_append, List.cons.injEq, true_and]
      exact ih (by simpa [hk] using h)

theorem dictRemove_of_get_none {α : Type} (d : List (String × α)) (k : String)
    (h : dictGet d k = none) : dictRemove d k = d := by
  induction d with
  | nil => simp [dictRemove]
  | cons kv rest ih =>
    simp only [dictGet] at h
    by_cases hk : kv.1 = k
    · simp [hk] at h
    · simp only [dictRemove, hk, if_false, List.cons.injEq, true_and]
      exact ih (by simpa [hk] using h)

theorem dictRemove_append {α : Type} (d e : List (String × α)) (k : String) :
    dictRemove (d ++ e) k = dictRemove d k ++ dictRemove e k := by
  induction d with
  | nil => simp [dictRemove]
  | cons kv rest ih =>
    by_cases hk : kv.1 = k
    · simp [dictRemove, hk, ih]
    · simp [dictRemove, hk, ih]

theorem dictRemove_dictSet_of_none {α : Type} (d : List (String × α)) (k : String) (v : α)
    (h : dictGet d k = none) : dictRemove (dictSet d k v) k = d := by
  rw [dictSet_of_get_none d k v h, dictRemove_append, dictRemove_of_get_none d k h]
  simp [dictRemove]

theorem dictUpdate_pair {α : Type} (d : List (String × α)) (k1 k2 : String) (v1 v2 : α) :
    dictUpdate d [(k1, v1), (k2, v2)] = dictSet (dictSet d k1 v1) k2 v2 := rfl

/-! ## Helper lemmas about strings -/

theorem str_append_ne_empty (s t : String) (ht : t ≠ "") : s ++ t ≠ "" := by
  intro h
  have hl := congrArg String.length h
  rw [String.length_append] at hl
  simp only [show ("" : String).length = 0 from rfl] at hl
  have h0 : t.length = 0 := by omega
  have h1 : t.data.length = 0 := h0
  exact ht (String.ext (List.length_eq_zero.mp h1))

theorem str_isEmpty_false (s : String) (h : s ≠ "") : s.isEmpty = false := by
  rw [Bool.eq_false_iff]
  intro he
  exact h ((String.isEmpty_iff s).mp he)

/-! ## Helper lemmas about the guarded-renaming fold of `Product.load_payload` -/

theorem fold_addIf_notin (data : List (String × PVal)) (fm : List (String × String))
    (pl0 : List (String × PVal)) (k : String) (h : ∀ sd ∈ fm, sd.2 ≠ k) :
    dictGet (fm.foldl (fun pl sd => addIf data pl sd.1 sd.2) pl0) k = dictGet pl0 k := by
  induction fm generalizing pl0 with
  | nil => rfl
  | cons sd rest ih =>
    rw [List.foldl_cons]
    rw [ih _ (fun x hx => h x (List.mem_cons_of_mem _ hx))]
    unfold addIf
    cases dictGet data sd.1 with
    | none => rfl
    | some v => exact dictGet_dictSet_ne _ _ _ _ (h sd (List.mem_cons_self _ _)).symm

theorem fold_addIf_find (data : List (String × PVal)) (fm : List (String × String))
    (pl0 : List (String × PVal)) (k : String) (hnd : (fm.map Prod.snd).Nodup)
    (hpl : dictGet pl0 k = none) :
    dictGet (fm.foldl (fun pl sd => addIf data pl sd.1 sd.2) pl0) k =
      match fm.find? (fun sd => sd.2 == k) with
      | some sd => dictGet data sd.1
      | none => none := by
  induction fm generalizing pl0 with
  | nil => simpa [List.find?] using hpl
  | cons sd rest ih =>
    rw [List.map_cons, List.nodup_cons] at hnd
    rw [List.foldl_cons]
    by_cases hd : sd.2 = k
    · rw [List.find?_cons_of_pos _ (by simpa using hd)]
      have hrest : ∀ x ∈ rest, x.2 ≠ k := by
        intro x hx he
        apply hnd.1
        rw [show sd.2 = x.2 from (he.trans hd.symm).symm]
        exact List.mem_map_of_mem Prod.snd hx
      rw [fold_addIf_notin data rest _ k hrest]
      unfold addIf
      cases hv : dictGet data sd.1 with
      | none => subst hd; simpa [hv] using hpl
      | some v => subst hd; simp [dictGet_dictSet_self, hv]
    · rw [List.find?_cons_of_neg _ (by simpa using hd)]
      refine ih _ hnd.2 ?_
      unfold addIf
      cases dictGet data sd.1 with
      | none => exact hpl
      | some v => rw [dictGet_dictSet_ne _ _ _ _ (fun e => hd e.symm)]; exact hpl

/-! ## Helper lemmas about the iteration protocol -/

theorem pyIndex_natCast (xs : List Json) (k : Nat) : pyIndex xs (k : Int) = xs.get? k := by
  simp [pyIndex, Int.toNat_natCast]

theorem count_set_index (p : Pagination) (i : Int) :
    ({ p with current_index := i } : Pagination).count = p.count := rfl

theorem next_at_item (p : Pagination) (cN k : Nat) (j : Json)
    (hc : p.count = some (cN : Int)) (h1 : k < cN) (hj : p.items.get? k = some j) :
    ({ p with current_index := (k : Int) - 1 } : Pagination).next =
      ({ p with current_index := ((k + 1 : Nat) : Int) - 1 }, PullResult.item j) := by
  have hc' : ({ p with current_index := (k : Int) - 1 } : Pagination).count
      = some (cN : Int) := hc
  simp only [Pagination.next, hc']
  rw [if_pos (by omega : ((k : Int) - 1 < (cN : Int) - 1))]
  have he : (k : Int) - 1 + 1 = ((k : Nat) : Int) := by ring
  simp only [he, pyIndex_natCast, hj]
  have he2 : ((k : Nat) : Int) = ((k + 1 : Nat) : Int) - 1 := by push_cast; ring
  rw [he2]

theorem next_at_ixerr (p : Pagination) (cN k : Nat)
    (hc : p.count = some (cN : Int)) (h1 : k < cN) (hj : p.items.get? k = none) :
    ({ p with current_index := (k : Int) - 1 } : Pagination).next =
      ({ p with current_index := ((k + 1 : Nat) : Int) - 1 }, PullResult.indexError) := by
  have hc' : ({ p with current_index := (k : Int) - 1 } : Pagination).count
      = some (cN : Int) := hc
  simp only [Pagination.next, hc']
  rw [if_pos (by omega : ((k : Int) - 1 < (cN : Int) - 1))]
  have he : (k : Int) - 1 + 1 = ((k : Nat) : Int) := by ring
  simp only [he, pyIndex_natCast, hj]
  have he2 : ((k : Nat) : Int) = ((k + 1 : Nat) : Int) - 1 := by push_cast; ring
  rw [he2]

theorem next_at_stop (p : Pagination) (cN k : Nat)
    (hc : p.count = some (cN : Int)) (h1 : cN ≤ k) :
    ({ p with current_index := (k : Int) - 1 } : Pagination).next =
      ({ p with current_index := (k : Int) - 1 }, PullResult.stopIteration) := by
  have hc' : ({ p with current_index := (k : Int) - 1 } : Pagination).count
      = some (cN : Int) := hc
  simp only [Pagination.next, hc']
  rw [if_neg (by omega : ¬ ((k : Int) - 1 < (cN : Int) - 1))]

theorem runAux_succ (p : Pagination) (n : Nat) :
    p.runAux (n + 1) =
      match p.next with
      | (p', PullResult.item j) =>
        (j :: (p'.runAux n).1, (p'.runAux n).2.1, (p'.runAux n).2.2)
      | (p', e) => ([], p', some e) := rfl

theorem runAux_eq (p : Pagination) (cN : Nat) (hc : p.count = some (cN : Int)) :
    ∀ (fuel k : Nat), k ≤ min cN p.items.length →
    Pagination.runAux { p with current_index := (k : Int) - 1 } fuel =
      ((p.items.drop k).take (min fuel (min cN p.items.length - k)),
       { p with current_index :=
          (if fuel ≤ min cN p.items.length - k then (k : Int) + (fuel : Int)
           else if cN ≤ p.items.length then ((min cN p.items.length : Nat) : Int)
           else ((min cN p.items.length : Nat) : Int) + 1) - 1 },
       if fuel ≤ min cN p.items.length - k then none
       else if cN ≤ p.items.length then some PullResult.stopIteration
       else some PullResult.indexError) := by
  intro fuel
  induction fuel with
  | zero =>
    intro k hk
    rw [if_pos (Nat.zero_le _), if_pos (Nat.zero_le _)]
    simp [Pagination.runAux]
  | succ n ih =>
    intro k hk
    by_cases hkm : k < min cN p.items.length
    · have hkc : k < cN := lt_of_lt_of_le hkm (Nat.min_le_left _ _)
      have hkL : k < p.items.length := lt_of_lt_of_le hkm (Nat.min_le_right _ _)
      have hj : p.items.get? k = some (p.items.get ⟨k, hkL⟩) := List.get?_eq_get hkL
      rw [runAux_succ, next_at_item p cN k _ hc hkc hj]
      simp only []
      rw [ih (k + 1) (by omega)]
      have hdrop : p.items.drop k = p.items.get ⟨k, hkL⟩ :: p.items.drop (k + 1) :=
        (List.get_cons_drop p.items ⟨k, hkL⟩).symm
      have hmin : min (n + 1) (min cN p.items.length - k)
          = min n (min cN p.items.length - (k + 1)) + 1 := by omega
      simp only [Prod.mk.injEq]
      refine ⟨?_, ?_, ?_⟩
      · rw [hdrop, hmin, List.take_succ_cons]
      · by_cases hcond : n + 1 ≤ min cN p.items.length - k
        · rw [if_pos hcond, if_pos (by omega : n ≤ min cN p.items.length - (k + 1))]
          congr 1
          push_cast
          ring
        · rw [if_neg hcond, if_neg (by omega : ¬ n ≤ min cN p.items.length - (k + 1))]
      · by_cases hcond : n + 1 ≤ min cN p.items.length - k
        · rw [if_pos hcond, if_pos (by omega : n ≤ min cN p.items.length - (k + 1))]
        · rw [if_neg hcond, if_neg (by omega : ¬ n ≤ min cN p.items.length - (k + 1))]
    · have hkm' : k = min cN p.items.length := by omega
      by_cases hcl : cN ≤ p.items.length
      · have hck : cN ≤ k := by omega
        rw [runAux_succ, next_at_stop p cN k hc hck]
        simp only []
        have hmk : min cN p.items.length - k = 0 := by omega
        rw [hmk]
        rw [if_neg (by omega : ¬ n + 1 ≤ 0), if_neg (by omega : ¬ n + 1 ≤ 0),
          if_pos hcl, if_pos hcl]
        simp only [Nat.min_zero, List.take_zero, Prod.mk.injEq]
        refine ⟨trivial, ?_, trivial⟩
        rw [hkm']
      · have hL : p.items.length < cN := by omega
        have hkL : k = p.items.length := by omega
        have hkc : k < cN := by omega
        have hj : p.items.get? k = none := List.get?_eq_none.mpr (by omega)
        rw [runAux_succ, next_at_ixerr p cN k hc hkc hj]
        simp only []
        have hmk : min cN p.items.length - k = 0 := by omega
        rw [hmk]
        rw [if_neg (by omega : ¬ n + 1 ≤ 0), if_neg (by omega : ¬ n + 1 ≤ 0),
          if_neg hcl, if_neg hcl]
        simp only [Nat.min_zero, List.take_zero, Prod.mk.injEq]
        refine ⟨trivial, ?_, trivial⟩
        congr 1
        have : min cN p.items.length = k := hkm'.symm
        rw [this]
        push_cast
        ring

theorem has_next_eq (p : Pagination) (pg pgs : Int)
    (hpg : p.page = some pg) (hpgs : p.pages = some pgs) :
    p.has_next = some (decide (pgs > pg)) := by
  simp [Pagination.has_next, hpg, hpgs]

theorem next_page_pos (p : Pagination) (pg pgs : Int)
    (hpg : p.page = some pg) (hpgs : p.pages = some pgs) (h : pg < pgs) :
    p.next_page = some (some { page := pg + 1, filters := p.filters }) := by
  simp [Pagination.next_page, has_next_eq p pg pgs hpg hpgs, h, hpg]

theorem next_page_neg (p : Pagination) (pg pgs : Int)
    (hpg : p.page = some pg) (hpgs : p.pages = some pgs) (h : ¬ pg < pgs) :
    p.next_page = some none := by
  simp [Pagination.next_page, has_next_eq p pg pgs hpg hpgs, h]

/-! ## The claims -/

/-- Claim C1, as amended: for every CRUD operation (all of find, get,
create, update and delete validate the response through
`Resource.validate_response` and then return the decoded body), a 404
response raises `ResourceNotFound` and never the generic HTTP error; any
other status in 400..599 raises the generic HTTP error carrying the status;
and every status outside 400..599 — in particular every 2xx — raises
neither and the operation returns the decoded JSON body.  (The original
claim said every non-2xx status other than 404 raises the generic error;
`raise_for_status` does not raise for 1xx and 3xx statuses, see the
counterexample at status 301.) -/
theorem spree_C1 (status : Nat) (body : Json) :
    (status = 404 →
      Resource.handle { status := status, body := body }
        = Except.error SpreeError.resourceNotFound) ∧
    (status ≠ 404 → 400 ≤ status → status < 600 →
      Resource.handle { status := status, body := body }
        = Except.error (SpreeError.httpError status)) ∧
    (status < 400 →
      Resource.handle { status := status, body := body } = Except.ok body) ∧
    (600 ≤ status →
      Resource.handle { status := status, body := body } = Except.ok body) := by
  refine ⟨?_, ?_, ?_, ?_⟩
  · intro h
    subst h
    rfl
  · intro h1 h2 h3
    simp [Resource.handle, validate_response, raise_for_status, h1, h2, h3]
  · intro h
    have h1 : status ≠ 404 := by omega
    have h2 : ¬ (400 ≤ status ∧ status < 600) := by omega
    simp [Resource.handle, validate_response, raise_for_status, h1, h2]
  · intro h
    have h1 : status ≠ 404 := by omega
    have h2 : ¬ (400 ≤ status ∧ status < 600) := by omega
    simp [Resource.handle, validate_response, raise_for_status, h1, h2]

/-- Witness for C1: the three behaviours at the concrete statuses 404, 500
and 200. -/
theorem spree_C1_witness :
    Resource.handle { status := 404, body := Json.null }
      = Except.error SpreeError.resourceNotFound ∧
    Resource.handle { status := 500, body := Json.null }
      = Except.error (SpreeError.httpError 500) ∧
    Resource.handle { status := 200, body := Json.null } = Except.ok Json.null :=
  ⟨(spree_C1 404 Json.null).1 rfl,
   (spree_C1 500 Json.null).2.1 (by decide) (by decide) (by decide),
   (spree_C1 200 Json.null).2.2.1 (by decide)⟩

/-- Counterexample to C1 as stated: status 301 is neither a 2xx nor 404,
so the claim says the generic HTTP error must be raised — but
`raise_for_status` only raises for 400..599, so the operation raises
nothing and returns the decoded body. -/
theorem spree_C1_counterexample :
    Resource.handle { status := 301, body := Json.null } = Except.ok Json.null ∧
    validate_response 301 = Except.ok () := ⟨rfl, rfl⟩

/-- Claim C2: for a `Pagination` whose payload carries integer fields
`count`, `current_page` and `pages`, `has_next` is true iff `pages > page`;
when it is true, `next_page` delegates to the owning resource's `find`
with `page + 1` and the stored filters; when it is false, `next_page`
returns `None`. -/
theorem spree_C2 (p : Pagination) (c pg pgs : Int)
    (hc : p.count = some c) (hpg : p.page = some pg) (hpgs : p.pages = some pgs) :
    p.has_next = some (decide (pgs > pg)) ∧
    (pgs > pg → p.next_page = some (some { page := pg + 1, filters := p.filters })) ∧
    (¬ pgs > pg → p.next_page = some none) :=
  ⟨has_next_eq p pg pgs hpg hpgs,
   fun h => next_page_pos p pg pgs hpg hpgs h,
   fun h => next_page_neg p pg pgs hpg hpgs h⟩

/-- Witness for C2 at a concrete page (current_page 1 of 3). -/
theorem spree_C2_witness :
    ({ data := [("count", Json.int 5), ("current_page", Json.int 1),
                ("pages", Json.int 3)],
       items := [], current_index := -1, filters := none } : Pagination).has_next
      = some true ∧
    ({ data := [("count", Json.int 5), ("current_page", Json.int 1),
                ("pages", Json.int 3)],
       items := [], current_index := -1, filters := none } : Pagination).next_page
      = some (some { page := 2, filters := none }) := by
  have h := spree_C2
    { data := [("count", Json.int 5), ("current_page", Json.int 1),
               ("pages", Json.int 3)],
      items := [], current_index := -1, filters := none } 5 1 3 rfl rfl rfl
  exact ⟨by simpa using h.1, by simpa using h.2.1 (by decide)⟩

/-- Claim C4 is a code bug: `Variant.path` substitutes `product_id` into
`'/products/%s/variants'` unconditionally, so a handle constructed without
a `product_id` makes find/create/update/delete target the nonsense path
`/products/None/variants`, not `/variants` as the spec (and the code's own
`Variant.get` fallback) intend.  This theorem evaluates the code at the
failing input. -/
theorem spree_C4_eval :
    Variant.path none = "/products/None/variants" ∧
    Variant.path (some 3) = "/products/3/variants" ∧
    (Resource.find_effect ("http://s" ++ Variant.path none) 25 1 none).request.url
      = "http://s/products/None/variants" := ⟨rfl, rfl, rfl⟩

/-- Claim C8: `find` with the default page argument (1) and no filters
issues a GET whose query parameters carry `page=1` and `per_page` equal to
the handle's configured page size, whose default is 25. -/
theorem spree_C8 (url : String) (per_page : Int) :
    dictGet (Resource.find_effect url per_page 1 none).request.params "page"
      = some (PVal.i 1) ∧
    dictGet (Resource.find_effect url per_page 1 none).request.params "per_page"
      = some (PVal.i per_page) ∧
    Resource.default_per_page = 25 ∧
    (Resource.find_effect url Resource.default_per_page 1 none).request.params
      = [("page", PVal.i 1), ("per_page", PVal.i 25)] :=
  ⟨rfl, rfl, rfl, rfl⟩

/-- Claim C5: a `Variant` handle constructed without a `product_id` sends
`get(id)` as a GET to `connection.url + '/variants'` with query parameter
`q[id_eq]=id`; on a 2xx response it unwraps and returns the single element
of the decoded page's `variants` array, and fails with the unpacking
`ValueError` whenever that array holds zero elements or more than one. -/
theorem spree_C5 (conn_url : String) (id : Int) (r : HttpResponse)
    (fields : List (String × Json))
    (hs : 200 ≤ r.status) (hs' : r.status < 300) (hb : r.body = Json.obj fields) :
    Variant.get_request conn_url none id
      = { method := "GET", url := conn_url ++ "/variants",
          params := [("q[id_eq]", PVal.i id)], body := [] } ∧
    (∀ x, dictGet fields "variants" = some (Json.arr [x]) →
      Variant.get_response none r = Except.ok x) ∧
    (∀ xs, dictGet fields "variants" = some (Json.arr xs) → xs.length ≠ 1 →
      Variant.get_response none r = Except.error SpreeError.valueError) := by
  have hv : validate_response r.status = Except.ok () := by
    have h1 : r.status ≠ 404 := by omega
    have h2 : ¬ (400 ≤ r.status ∧ r.status < 600) := by omega
    simp [validate_response, raise_for_status, h1, h2]
  refine ⟨rfl, ?_, ?_⟩
  · intro x hx
    simp [Variant.get_response, pyTruthyOpt, hv, hb, hx]
  · intro xs hx hlen
    rcases xs with _ | ⟨a, _ | ⟨b, t⟩⟩
    · simp [Variant.get_response, pyTruthyOpt, hv, hb, hx]
    · simp at hlen
    · simp [Variant.get_response, pyTruthyOpt, hv, hb, hx]

/-- Witness for C5: a mock 200 response with exactly one item in
`variants` returns it unwrapped; an empty `variants` array fails. -/
theorem spree_C5_witness :
    Variant.get_request "http://s" none 42
      = { method := "GET", url := "http://s/variants",
          params := [("q[id_eq]", PVal.i 42)], body := [] } ∧
    Variant.get_response none
      { status := 200, body := Json.obj [("variants", Json.arr [Json.int 7])] }
      = Except.ok (Json.int 7) ∧
    Variant.get_response none
      { status := 200, body := Json.obj [("variants", Json.arr [])] }
      = Except.error SpreeError.valueError := by
  have h1 := spree_C5 "http://s" 42
    { status := 200, body := Json.obj [("variants", Json.arr [Json.int 7])] }
    [("variants", Json.arr [Json.int 7])] (by decide) (by decide) rfl
  have h2 := spree_C5 "http://s" 42
    { status := 200, body := Json.obj [("variants", Json.arr [])] }
    [("variants", Json.arr [])] (by decide) (by decide) rfl
  refine ⟨h1.1.trans (by decide), h1.2.1 (Json.int 7) rfl, h2.2.2 [] rfl (by decide)⟩

/-- Claim C6, as amended: `Product.load_payload` requires the `name` field
— an input without `name` raises `KeyError` (the source reads
`data['name']` unconditionally) — and for any input carrying `name` the
payload is exactly the whitelist-and-rename the spec describes
(`productPayloadSpec`): each whitelisted field present in the input appears
as `product[field]` with the input's value, absent fields are omitted, and
no other key appears; in particular an input with only `name` and `price`
yields exactly `product[name]` and `product[price]`.  (The original claim
also allowed inputs without `name`, where it said `product[name]` would
simply be omitted; the counterexample shows the `KeyError`.) -/
theorem spree_C6 (data : List (String × PVal)) :
    (dictGet data "name" = none →
      Product.load_payload data = Except.error SpreeError.keyError) ∧
    (∀ payload, Product.load_payload data = Except.ok payload →
      ∀ k, dictGet payload k = productPayloadSpec data k) ∧
    Product.load_payload [("name", PVal.s "Shirt"), ("price", PVal.s "9.99")]
      = Except.ok [("product[name]", PVal.s "Shirt"),
                   ("product[price]", PVal.s "9.99")] := by
  refine ⟨?_, ?_, rfl⟩
  · intro h
    simp [Product.load_payload, h]
  · intro payload hpl k
    unfold Product.load_payload at hpl
    cases hname : dictGet data "name" with
    | none => rw [hname] at hpl; exact absurd hpl (by simp)
    | some v =>
      rw [hname] at hpl
      have hinj := Except.ok.inj hpl
      subst hinj
      by_cases hk : k = "product[name]"
      · subst hk
        rw [fold_addIf_notin data productFieldMap _ _ (by decide)]
        simp [productPayloadSpec, dictGet, hname]
      · have hpl0 : dictGet [("product[name]", v)] k = none := by
          simp only [dictGet]
          rw [if_neg (fun e => hk e.symm)]
        rw [fold_addIf_find data productFieldMap _ k (by decide) hpl0]
        unfold productPayloadSpec
        rw [if_neg hk]

/-- Witness for C6: the `KeyError` at an input without `name`, and the
payload characterisation evaluated at the name-and-price input. -/
theorem spree_C6_witness :
    Product.load_payload [("price", PVal.s "9.99")]
      = Except.error SpreeError.keyError ∧
    dictGet [("product[name]", PVal.s "Shirt"), ("product[price]", PVal.s "9.99")]
        "product[price]"
      = productPayloadSpec [("name", PVal.s "Shirt"), ("price", PVal.s "9.99")]
        "product[price]" :=
  ⟨(spree_C6 [("price", PVal.s "9.99")]).1 rfl,
   (spree_C6 [("name", PVal.s "Shirt"), ("price", PVal.s "9.99")]).2.1
     [("product[name]", PVal.s "Shirt"), ("product[price]", PVal.s "9.99")] rfl
     "product[price]"⟩

/-- Counterexample to C6 as stated: the claim says every whitelisted field
absent from the input is simply omitted from the payload, so the input
holding only `price` should yield the payload with the single key
`product[price]`; the code instead reads `data['name']` unconditionally and
raises `KeyError`, producing no payload at all. -/
theorem spree_C6_counterexample :
    Product.load_payload [("price", PVal.s "9.99")]
      = Except.error SpreeError.keyError := rfl

theorem shipment_action_eq (conn_url order_number shipment_number suffix : String)
    (data : List (String × PVal)) (hp : dictGet data "path" = none)
    (hsuf : suffix ≠ "") :
    Shipment.update conn_url order_number shipment_number
      (dictSet data "path"
        (PVal.s (Shipment.url conn_url order_number ++ "/" ++ shipment_number ++ suffix)))
      = { method := "PUT",
          url := Shipment.url conn_url order_number ++ "/" ++ shipment_number ++ suffix,
          params := Shipment.load_payload data, body := [] } := by
  have ht : pvTruthy (PVal.s
      (Shipment.url conn_url order_number ++ "/" ++ shipment_number ++ suffix)) = true := by
    simp only [pvTruthy]
    rw [str_isEmpty_false _ (str_append_ne_empty _ _ hsuf)]
    rfl
  simp only [Shipment.update, dictGet_dictSet_self, ht, if_true, pvStr,
    dictRemove_dictSet_of_none data "path" _ hp]

/-- Claim C7: every Shipment sub-action helper (ready, ship, add, remove)
funnels through `Shipment.update` and issues a single PUT to the shipment
path followed by `/{shipmentNumber}/<action>` (`update` itself defaults to
`.../{shipmentNumber}` when `data` holds no truthy `path` override), with
the shaped payload sent as query parameters and the request body empty; in
particular `ship` with no caller data sends an empty query-parameter
payload and an empty body. -/
theorem spree_C7 (conn_url order_number shipment_number : String)
    (data : List (String × PVal)) (hp : dictGet data "path" = none) :
    Shipment.ready conn_url order_number shipment_number data
      = { method := "PUT",
          url := Shipment.url conn_url order_number ++ "/" ++ shipment_number ++ "/ready",
          params := Shipment.load_payload data, body := [] } ∧
    Shipment.ship conn_url order_number shipment_number data
      = { method := "PUT",
          url := Shipment.url conn_url order_number ++ "/" ++ shipment_number ++ "/ship",
          params := Shipment.load_payload data, body := [] } ∧
    Shipment.add conn_url order_number shipment_number data
      = { method := "PUT",
          url := Shipment.url conn_url order_number ++ "/" ++ shipment_number ++ "/add",
          params := Shipment.load_payload data, body := [] } ∧
    Shipment.remove conn_url order_number shipment_number data
      = { method := "PUT",
          url := Shipment.url conn_url order_number ++ "/" ++ shipment_number ++ "/remove",
          params := Shipment.load_payload data, body := [] } ∧
    Shipment.update conn_url order_number shipment_number data
      = { method := "PUT",
          url := Shipment.url conn_url order_number ++ "/" ++ shipment_number,
          params := Shipment.load_payload data, body := [] } ∧
    Shipment.ship conn_url order_number shipment_number []
      = { method := "PUT",
          url := Shipment.url conn_url order_number ++ "/" ++ shipment_number ++ "/ship",
          params := [], body := [] } := by
  refine ⟨?_, ?_, ?_, ?_, ?_, ?_⟩
  · exact shipment_action_eq conn_url order_number shipment_number "/ready" data hp
      (by decide)
  · exact shipment_action_eq conn_url order_number shipment_number "/ship" data hp
      (by decide)
  · exact shipment_action_eq conn_url order_number shipment_number "/add" data hp
      (by decide)
  · exact shipment_action_eq conn_url order_number shipment_number "/remove" data hp
      (by decide)
  · simp only [Shipment.update, hp]
  · exact shipment_action_eq conn_url order_number shipment_number "/ship" [] rfl
      (by decide)

/-- Witness for C7 at concrete strings: `ship` with no data PUTs to the
`/ship` sub-action URL with empty query parameters and an empty body. -/
theorem spree_C7_witness :
    Shipment.ship "http://x" "R1" "H123456789" []
      = { method := "PUT", url := "http://x/orders/R1/shipments/H123456789/ship",
          params := [], body := [] } :=
  (spree_C7 "http://x" "R1" "H123456789" [] rfl).2.2.2.2.2.trans (by decide)

/-- Claim C10: a non-empty caller-supplied filters dictionary is aliased by
`params = filters or {}`, so `params.update({'page': ..., 'per_page': ...})`
leaves the caller's dictionary holding `page` and `per_page` entries after
the call, and the returned Pagination stores that same mutated dictionary
as its filters; consequently `next_page` re-submits those `page` and
`per_page` entries inside the filters it forwards to `find`. -/
theorem spree_C10 (url : String) (per_page page : Int)
    (f : List (String × PVal)) (hf : f ≠ []) :
    (Resource.find_effect url per_page page (some f)).callerFilters
      = some (dictUpdate f [("page", PVal.i page), ("per_page", PVal.i per_page)]) ∧
    (Resource.find_effect url per_page page (some f)).pagFilters
      = (Resource.find_effect url per_page page (some f)).callerFilters ∧
    (Resource.find_effect url per_page page (some f)).request.params
      = dictUpdate f [("page", PVal.i page), ("per_page", PVal.i per_page)] ∧
    dictGet (dictUpdate f [("page", PVal.i page), ("per_page", PVal.i per_page)]) "page"
      = some (PVal.i page) ∧
    dictGet (dictUpdate f [("page", PVal.i page), ("per_page", PVal.i per_page)])
        "per_page"
      = some (PVal.i per_page) ∧
    (∀ (q : Pagination) (pgq pgsq : Int),
      q.filters = (Resource.find_effect url per_page page (some f)).pagFilters →
      q.page = some pgq → q.pages = some pgsq → pgq < pgsq →
      q.next_page = some (some
        { page := pgq + 1,
          filters := some (dictUpdate f
            [("page", PVal.i page), ("per_page", PVal.i per_page)]) })) := by
  have hne : f.isEmpty = false := by
    cases f with
    | nil => exact absurd rfl hf
    | cons a t => rfl
  refine ⟨?_, ?_, ?_, ?_, ?_, ?_⟩
  · simp [Resource.find_effect, hne]
  · simp [Resource.find_effect, hne]
  · simp [Resource.find_effect, hne]
  · rw [dictUpdate_pair, dictGet_dictSet_ne _ _ _ _ (by decide), dictGet_dictSet_self]
  · rw [dictUpdate_pair, dictGet_dictSet_self]
  · intro q pgq pgsq hqf hqpage hqpages hlt
    rw [next_page_pos q pgq pgsq hqpage hqpages hlt, hqf]
    simp [Resource.find_effect, hne]

/-- Witness for C10: a concrete one-entry filters dictionary comes back
from `find` holding the inserted `page` and `per_page` entries. -/
theorem spree_C10_witness :
    (Resource.find_effect "u" 25 1 (some [("q[name_cont]", PVal.s "shirt")])).callerFilters
      = some [("q[name_cont]", PVal.s "shirt"), ("page", PVal.i 1),
              ("per_page", PVal.i 25)] :=
  ((spree_C10 "u" 25 1 [("q[name_cont]", PVal.s "shirt")] (by decide)).1).trans
    (by decide)

/-- Claim C3, as amended: for every `Pagination` whose reported `count` is a
nonnegative integer and whose items sequence holds at least `count`
elements, iterating from the initial cursor (-1) yields exactly the first
`count` items in order and then terminates with `StopIteration`; and from
the exhausted state (cursor `count - 1`, which iteration reaches and never
leaves) any further iteration attempt yields no items at all —
`__iter__` returns `self`, so the iterator is non-restartable — and
`Pagination.next` is a pure state transition that issues no HTTP request.
(The original claim held for every integer `count`; the counterexample
shows a negative reported `count`, where iteration yields zero items, not
`count` items.) -/
theorem spree_C3 (p : Pagination) (cN : Nat)
    (hidx : p.current_index = -1) (hc : p.count = some (cN : Int))
    (hlen : cN ≤ p.items.length) :
    (p.items.take cN).length = cN ∧
    (∀ fuel, cN < fuel →
      p.runAux fuel
        = (p.items.take cN, { p with current_index := (cN : Int) - 1 },
           some PullResult.stopIteration)) ∧
    (∀ fuel, 0 < fuel →
      ({ p with current_index := (cN : Int) - 1 } : Pagination).runAux fuel
        = ([], { p with current_index := (cN : Int) - 1 },
           some PullResult.stopIteration)) := by
  have hmin : min cN p.items.length = cN := Nat.min_eq_left hlen
  have hpeq : ({ p with current_index := ((0 : Nat) : Int) - 1 } : Pagination) = p := by
    have h0 : ((0 : Nat) : Int) - 1 = p.current_index := by rw [hidx]; norm_num
    rw [h0]
  refine ⟨?_, ?_, ?_⟩
  · rw [List.length_take]
    omega
  · intro fuel hfuel
    have h := runAux_eq p cN hc fuel 0 (Nat.zero_le _)
    rw [hpeq] at h
    rw [h]
    simp only [hmin, Nat.sub_zero, List.drop_zero]
    rw [if_neg (by omega : ¬ fuel ≤ cN), if_neg (by omega : ¬ fuel ≤ cN),
      if_pos hlen, if_pos hlen]
    rw [show min fuel cN = cN by omega]
  · intro fuel hfuel
    have h := runAux_eq p cN hc fuel cN (by omega)
    rw [h]
    simp only [hmin, Nat.sub_self, Nat.min_zero, List.take_zero]
    rw [if_neg (by omega : ¬ fuel ≤ 0), if_neg (by omega : ¬ fuel ≤ 0),
      if_pos hlen, if_pos hlen]

/-- Witness for C3: a page reporting count 2 over three decoded items
yields exactly the first two items, ends in `StopIteration`, and leaves the
cursor at `count - 1`. -/
theorem spree_C3_witness :
    ({ data := [("count", Json.int 2), ("current_page", Json.int 1),
                ("pages", Json.int 1)],
       items := [Json.int 10, Json.int 20, Json.int 30], current_index := -1,
       filters := none } : Pagination).runAux 3
      = ([Json.int 10, Json.int 20],
         { data := [("count", Json.int 2), ("current_page", Json.int 1),
                    ("pages", Json.int 1)],
           items := [Json.int 10, Json.int 20, Json.int 30], current_index := 1,
           filters := none }, some PullResult.stopIteration) := by
  have h := (spree_C3
    { data := [("count", Json.int 2), ("current_page", Json.int 1),
               ("pages", Json.int 1)],
      items := [Json.int 10, Json.int 20, Json.int 30], current_index := -1,
      filters := none } 2 rfl rfl (by decide)).2.1 3 (by decide)
  exact h

/-- Counterexample to C3 as stated: the claim quantifies over every
`Pagination` whose items sequence has length at least the reported integer
`count`.  With `count = -1` (and an empty items list, whose length 0 is at
least -1) iteration stops immediately, yielding zero items — there is no
such thing as yielding `-1` items — so the claim as stated fails; it only
holds for nonnegative `count`. -/
theorem spree_C3_counterexample :
    ({ data := [("count", Json.int (-1)), ("current_page", Json.int 1),
                ("pages", Json.int 1)],
       items := [], current_index := -1, filters := none } : Pagination).count
      = some (-1) ∧
    (-1 : Int) ≤
      (({ data := [("count", Json.int (-1)), ("current_page", Json.int 1),
                   ("pages", Json.int 1)],
          items := [], current_index := -1,
          filters := none } : Pagination).items.length : Int) ∧
    ({ data := [("count", Json.int (-1)), ("current_page", Json.int 1),
                ("pages", Json.int 1)],
       items := [], current_index := -1, filters := none } : Pagination).runAux 1
      = ([],
         { data := [("count", Json.int (-1)), ("current_page", Json.int 1),
                    ("pages", Json.int 1)],
           items := [], current_index := -1, filters := none },
         some PullResult.stopIteration) :=
  ⟨rfl, by norm_num, rfl⟩

/-- Claim C9: iteration is bounded by the server-reported `count`, not by
the length of the decoded items sequence: when the items sequence holds
fewer than `count` elements, iteration yields every decoded item and then
fails with an `IndexError` from indexing past the end of `self.items`
(the cursor having been incremented to the out-of-range position), rather
than terminating with `StopIteration`. -/
theorem spree_C9 (p : Pagination) (cN : Nat)
    (hidx : p.current_index = -1) (hc : p.count = some (cN : Int))
    (hlen : p.items.length < cN) :
    ∀ fuel, p.items.length < fuel →
      p.runAux fuel
        = (p.items, { p with current_index := (p.items.length : Int) },
           some PullResult.indexError) := by
  have hmin : min cN p.items.length = p.items.length :=
    Nat.min_eq_right (le_of_lt hlen)
  have hpeq : ({ p with current_index := ((0 : Nat) : Int) - 1 } : Pagination) = p := by
    have h0 : ((0 : Nat) : Int) - 1 = p.current_index := by rw [hidx]; norm_num
    rw [h0]
  intro fuel hfuel
  have h := runAux_eq p cN hc fuel 0 (Nat.zero_le _)
  rw [hpeq] at h
  rw [h]
  simp only [hmin, Nat.sub_zero, List.drop_zero]
  rw [if_neg (by omega : ¬ fuel ≤ p.items.length),
    if_neg (by omega : ¬ fuel ≤ p.items.length),
    if_neg (by omega : ¬ cN ≤ p.items.length),
    if_neg (by omega : ¬ cN ≤ p.items.length)]
  rw [show min fuel p.items.length = p.items.length by omega, List.take_length]
  rw [show ((p.items.length : Nat) : Int) + 1 - 1 = ((p.items.length : Nat) : Int)
    by ring]

/-- Witness for C9: a page reporting count 5 over two decoded items yields
both items and then fails with `IndexError` on the third pull. -/
theorem spree_C9_witness :
    ({ data := [("count", Json.int 5)], items := [Json.int 1, Json.int 2],
       current_index := -1, filters := none } : Pagination).runAux 3
      = ([Json.int 1, Json.int 2],
         { data := [("count", Json.int 5)], items := [Json.int 1, Json.int 2],
           current_index := 2, filters := none }, some PullResult.indexError) := by
  have h := spree_C9
    { data := [("count", Json.int 5)], items := [Json.int 1, Json.int 2],
      current_index := -1, filters := none } 5 rfl rfl (by decide) 3 (by decide)
  exact h
